import Mathlib

/-!
Shallow embedding of `src/widget.js` (league table widget).

JavaScript objects are modelled as Lean structures whose fields are
`Option`-typed: `none` stands for an absent (`undefined`) property.
JavaScript numbers occurring in the data rows are modelled as `Int`
(the widget only ever receives integral statistics).  The mutable
module-level variables (`standingsByLeague`, `activeLeagueId`, ...)
become fields of a `WidgetState` record threaded explicitly through the
handlers.  `localeCompare` is kept abstract: the development is
parametric in a string comparison `lc : String → String → Int`, and
theorems that need it assume `LCValid lc` (the consistency every
real collator satisfies).
-/

namespace LeagueWidget

/-- Standing row of one team (`TeamRow` in the source).  Every field is
optional, mirroring untyped JavaScript objects where any property may be
absent. -/
structure TeamRow where
  equipeName : Option String := none
  points : Option Int := none
  victoires : Option Int := none
  defaites : Option Int := none
  nuls : Option Int := none
  forfaits : Option Int := none
  butsPour : Option Int := none
  butsContre : Option Int := none
  differentiel : Option Int := none
  teamUrl : Option String := none
  position : Option Int := none
  deriving DecidableEq

/-- A league descriptor, `{ id, name }` in the source. -/
structure League where
  id : String
  name : Option String := none
  deriving DecidableEq

/-- The nullish coalescing `x ?? 0` applied to a numeric field in the
sort comparator (widget.js lines 137-140): an absent field counts as 0. -/
def numKey (x : Option Int) : Int := x.getD 0

/-- The team name as read by the comparator, `String(a.equipeName || "")`
(widget.js line 141): an absent or empty name compares as the empty
string. -/
def nameKey (r : TeamRow) : String := r.equipeName.getD ""

/-- The comparator passed to `rows.sort` (widget.js lines 136-142).
JavaScript `d1 || d2` on numbers returns `d1` unless it is 0, so the
chain is an if-cascade on the successive differences; the final
`localeCompare` is the abstract parameter `lc`. -/
def cmpRows (lc : String → String → Int) (a b : TeamRow) : Int :=
  if numKey b.points - numKey a.points ≠ 0 then numKey b.points - numKey a.points
  else if numKey b.differentiel - numKey a.differentiel ≠ 0 then
    numKey b.differentiel - numKey a.differentiel
  else if numKey b.butsPour - numKey a.butsPour ≠ 0 then
    numKey b.butsPour - numKey a.butsPour
  else if numKey b.victoires - numKey a.victoires ≠ 0 then
    numKey b.victoires - numKey a.victoires
  else lc (nameKey a) (nameKey b)

/-- The non-strict order induced by the comparator: `a` may come before
`b` exactly when the comparator does not demand the opposite order. -/
def rowLe (lc : String → String → Int) (a b : TeamRow) : Prop :=
  cmpRows lc a b ≤ 0

instance rowLe.instDecidable (lc : String → String → Int) :
    DecidableRel (rowLe lc) :=
  fun a b => inferInstanceAs (Decidable (cmpRows lc a b ≤ 0))

/-- The stable sort `rows.sort(comparator)` of widget.js line 136.
ECMAScript `Array.prototype.sort` is specified to be stable, and for a
consistent comparator the stable sorted permutation is unique, so it is
modelled by insertion sort, which is stable for `rowLe`. -/
def sortRows (lc : String → String → Int) (rows : List TeamRow) : List TeamRow :=
  rows.insertionSort (rowLe lc)

/-- The position assignment `rows.forEach((r, i) => r.position = i + 1)`
of widget.js line 143, acting on the freshly copied rows. -/
def assignPositions (rows : List TeamRow) : List TeamRow :=
  rows.mapIdx fun i r => { r with position := some ((i : Int) + 1) }

/-- Consistency assumptions on the abstract locale comparison: what any
real `localeCompare` (a total preorder comparator) provides. -/
structure LCValid (lc : String → String → Int) : Prop where
  total : ∀ a b, lc a b ≤ 0 ∨ lc b a ≤ 0
  trans : ∀ a b c, lc a b ≤ 0 → lc b c ≤ 0 → lc a c ≤ 0

/-- A concrete locale comparison used to instantiate witnesses: plain
code-point order on strings. -/
def lcStd (a b : String) : Int :=
  if a < b then -1 else if b < a then 1 else 0

/-- The five-key chain of the spec, written exactly as the spec states it
(points desc, then differentiel desc, then butsPour desc, then victoires
desc, then team name ascending under the locale comparison), with every
missing numeric field compared as 0.  This is the spec-facing relation
that the comparator in the code is checked against. -/
def specFiveKeyChain (lc : String → String → Int) (a b : TeamRow) : Prop :=
  numKey a.points > numKey b.points ∨
    (numKey a.points = numKey b.points ∧
      (numKey a.differentiel > numKey b.differentiel ∨
        (numKey a.differentiel = numKey b.differentiel ∧
          (numKey a.butsPour > numKey b.butsPour ∨
            (numKey a.butsPour = numKey b.butsPour ∧
              (numKey a.victoires > numKey b.victoires ∨
                (numKey a.victoires = numKey b.victoires ∧
                  lc (nameKey a) (nameKey b) ≤ 0)))))))

theorem rowLe_iff (lc : String → String → Int) (a b : TeamRow) :
    rowLe lc a b ↔ specFiveKeyChain lc a b := by
  unfold rowLe cmpRows specFiveKeyChain
  split_ifs <;> omega

theorem rowLe_total {lc : String → String → Int} (h : LCValid lc)
    (a b : TeamRow) : rowLe lc a b ∨ rowLe lc b a := by
  rw [rowLe_iff, rowLe_iff]
  unfold specFiveKeyChain
  have := h.total (nameKey a) (nameKey b)
  omega

theorem rowLe_trans {lc : String → String → Int} (h : LCValid lc)
    (a b c : TeamRow) : rowLe lc a b → rowLe lc b c → rowLe lc a c := by
  intro hab hbc
  rw [rowLe_iff] at hab hbc ⊢
  unfold specFiveKeyChain at hab hbc ⊢
  have := h.trans (nameKey a) (nameKey b) (nameKey c)
  omega

theorem lcStd_le_iff (a b : String) : lcStd a b ≤ 0 ↔ a ≤ b := by
  unfold lcStd
  rcases lt_trichotomy a b with h | h | h
  · simp [h, le_of_lt h]
  · simp [h]
  · simp [h, not_lt_of_gt h, lt_asymm h, not_le_of_gt h]

theorem lcStd_valid : LCValid lcStd := by
  refine ⟨fun a b => ?_, fun a b c hab hbc => ?_⟩
  · rw [lcStd_le_iff, lcStd_le_iff]
    exact le_total a b
  · rw [lcStd_le_iff] at hab hbc ⊢
    exact le_trans hab hbc

/-- A message payload.  JavaScript passes one untyped object; the fields
that the widget ever reads are modelled as optional fields of a single
record (`none` = property absent).  `arrayProps` stands for the
remaining top-level row-array-valued properties of the payload, which only
`fallbackShape` looks at (heterogeneous top-level arrays of other
element types are outside this typed model; no claim exercises them). -/
structure Payload where
  leagues : Option (List League) := none
  standingsByLeague : Option (List (String × List TeamRow)) := none
  arrayProps : List (String × List TeamRow) := []
  leagueId : Option String := none
  standings : Option (List TeamRow) := none
  deriving DecidableEq

/-- The `event.data` record: `type` and `payload` properties, each
possibly absent. -/
structure MsgData where
  type : Option String := none
  payload : Option Payload := none
  deriving DecidableEq

/-- The outbound `postMessage` record sent to the parent window
(widget.js lines 214-217). -/
structure OutMessage where
  type : String
  leagueId : Option String
  equipeName : Option String
  url : String
  deriving DecidableEq

/-- The module-level mutable state of widget.js (lines 9-17), plus
`displayed`, which models the rows last pushed into the Tabulator table
by `table.setData` (the visible table contents). -/
structure WidgetState where
  activeLeagueId : Option String := none
  standingsByLeague : List (String × List TeamRow) := []
  leagues : List League := []
  domReady : Bool := false
  pendingPayload : Option Payload := none
  initReceived : Bool := false
  displayed : List TeamRow := []
  deriving DecidableEq

/-- A thrown JavaScript exception.  The only one this code can raise is
the `TypeError` from reading a property of `undefined`. -/
inductive JsError where
  | typeError
  deriving DecidableEq

/-- Property read on the standings map, `standingsByLeague[k]`.  The
JavaScript object (string keys, unique, insertion-ordered) is modelled
as an association list with first-match lookup. -/
def lookupStandings : List (String × List TeamRow) → String →
    Option (List TeamRow)
  | [], _ => none
  | p :: m, k => if p.1 = k then some p.2 else lookupStandings m k

/-- Property write `standingsByLeague[k] = v`: replace the entry holding
the key if present (objects have unique keys), otherwise append it, as
JavaScript appends new string keys in insertion order. -/
def updateStandings : List (String × List TeamRow) → String →
    List TeamRow → List (String × List TeamRow)
  | [], k, v => [(k, v)]
  | p :: m, k, v => if p.1 = k then (k, v) :: m else p :: updateStandings m k v

/-- The shallow copy `{ ...x }` of widget.js line 133: a fresh object
with the same own properties, i.e. the identity on row values.  The
source sorts and assigns positions on these copies only, never on the
arrays held in `standingsByLeague`. -/
def copyRow (r : TeamRow) : TeamRow := r

/-- The rows read for a league, `(standingsByLeague[leagueId] || [])`
followed by `.map(x => ({ ...x }))` (widget.js line 133). -/
def storedRows (st : WidgetState) (lid : String) : List TeamRow :=
  ((lookupStandings st.standingsByLeague lid).getD []).map copyRow

/-- The rows handed to `table.setData` by `renderLeague`: the copies,
stably sorted by the comparator, with `position` reassigned 1-based
(widget.js lines 133-148). -/
def displayRows (lc : String → String → Int) (st : WidgetState)
    (lid : String) : List TeamRow :=
  assignPositions (sortRows lc (storedRows st lid))

/-- The state effect of `renderLeague(leagueId)` (widget.js lines
130-149): set the active league, then compute the display rows from
copies of the stored rows and push them to the table.  The Tabulator
`initTable` / `redraw` plumbing has no effect on the modelled state. -/
def renderLeague (lc : String → String → Int) (st : WidgetState)
    (lid : String) : WidgetState :=
  { st with activeLeagueId := some lid, displayed := displayRows lc st lid }

/-- The shape fallback of widget.js lines 91-95: keep the top-level
array-valued properties of the payload, modelled by the `arrayProps`
field of `Payload`. -/
def fallbackShape (p : Payload) : List (String × List TeamRow) :=
  p.arrayProps

/-- Synthesis of league descriptors from the standings keys,
`keysToLeagues` of widget.js lines 97-99. -/
def keysToLeagues (m : List (String × List TeamRow)) : List League :=
  m.map fun p => { id := p.1, name := some p.1 }

/-- The initializer `processInitPayload` (widget.js lines 76-89) as a
state transformer.  Reading `payload.leagues` with `payload` absent
throws a `TypeError`, hence the `Except`.  The league dropdown is DOM
state outside the model; `scheduleInitialRender` (lines 115-127) is
modelled as the single immediate `renderLeague` — its animation-frame
and 60ms repeats re-render the same league and are no-ops on the
modelled state.  The returned list records the leagues rendered. -/
def processInitPayload (lc : String → String → Int) (st : WidgetState)
    (p? : Option Payload) : Except JsError (WidgetState × List String) :=
  match p? with
  | none => .error .typeError
  | some p =>
    let lgs := p.leagues.getD []
    let sbl :=
      match p.standingsByLeague with
      | some m => m
      | none => fallbackShape p
    let st1 := { st with leagues := lgs, standingsByLeague := sbl }
    let items := if lgs.isEmpty then keysToLeagues sbl else lgs
    match items with
    | [] => .ok (st1, [])
    | it :: _ => .ok (renderLeague lc st1 it.id, [it.id])

/-- The message handler `onMessageFromHost` (widget.js lines 57-73).
The incoming `event.data` may be any value; `none` models a falsy
`event.data`, which the destructuring `event.data || {}` turns into the
empty record.  A falsy `type` (absent or empty string) returns at once.
The returned list records the leagues rendered during the call. -/
def handleMessage (lc : String → String → Int) (st : WidgetState)
    (data? : Option MsgData) : Except JsError (WidgetState × List String) :=
  let d := data?.getD {}
  match d.type with
  | none => .ok (st, [])
  | some t =>
    if t = "" then .ok (st, [])
    else if t = "INIT_WIDGET" then
      let st1 := { st with initReceived := true }
      if !st1.domReady then
        .ok ({ st1 with pendingPayload := d.payload }, [])
      else
        processInitPayload lc st1 d.payload
    else if t = "UPDATE_TABLE" then
      match d.payload with
      | none => .ok (st, [])
      | some p =>
        match p.leagueId, p.standings with
        | some lid, some arr =>
          if lid = "" then .ok (st, [])
          else
            let st1 :=
              { st with standingsByLeague :=
                  updateStandings st.standingsByLeague lid arr }
            if st1.activeLeagueId = some lid then
              .ok (renderLeague lc st1 lid, [lid])
            else .ok (st1, [])
        | _, _ => .ok (st, [])
    else .ok (st, [])

/-- The built-in sample dataset `SAMPLE_PAYLOAD` (widget.js lines
20-31). -/
def SAMPLE_PAYLOAD : Payload :=
  { leagues := some [{ id := "Tr1", name := some "Club Tomohawk" }],
    standingsByLeague := some
      [("Tr1",
        [{ equipeName := some "CHAKS", points := some 12,
           victoires := some 4, defaites := some 0, nuls := some 0,
           forfaits := some 0, butsPour := some 16, butsContre := some 2,
           differentiel := some 14, teamUrl := some "/terrain1-chaks" },
         { equipeName := some "Kelb United", points := some 9,
           victoires := some 3, defaites := some 1, nuls := some 0,
           forfaits := some 0, butsPour := some 12, butsContre := some 6,
           differentiel := some 6, teamUrl := some "/terrain1-kelb-united" },
         { equipeName := some "Leaf", points := some 9,
           victoires := some 3, defaites := some 1, nuls := some 0,
           forfaits := some 0, butsPour := some 10, butsContre := some 5,
           differentiel := some 5, teamUrl := some "/terrain1-leaf" },
         { equipeName := some "Northside", points := some 6,
           victoires := some 2, defaites := some 2, nuls := some 0,
           forfaits := some 0, butsPour := some 8, butsContre := some 8,
           differentiel := some 0, teamUrl := some "/terrain1-northside" },
         { equipeName := some "Royal Academy", points := some 3,
           victoires := some 1, defaites := some 3, nuls := some 0,
           forfaits := some 1, butsPour := some 5, butsContre := some 12,
           differentiel := some (-7),
           teamUrl := some "/terrain1-royal-academy" }])] }

/-- The guard of the bootstrap timer callback (widget.js line 50):
no `INIT_WIDGET` received yet and the standings map has no keys. -/
def bootstrapFires (st : WidgetState) : Bool :=
  !st.initReceived && st.standingsByLeague.isEmpty

/-- The bootstrap timer callback scheduled 250ms after DOM-ready
(widget.js lines 49-53): feed the sample payload to the initializer if
and only if the guard holds. -/
def bootstrapTimer (lc : String → String → Int) (st : WidgetState) :
    Except JsError (WidgetState × List String) :=
  if bootstrapFires st then processInitPayload lc st (some SAMPLE_PAYLOAD)
  else .ok (st, [])

/-- The per-character HTML escaping of `escapeHtml` (widget.js lines
236-238): each of the five special characters maps to its entity, every
other character is kept. -/
def escapeHtmlChar (c : Char) : List Char :=
  if c = Char.ofNat 38 then "&amp;".data
  else if c = Char.ofNat 60 then "&lt;".data
  else if c = Char.ofNat 62 then "&gt;".data
  else if c = Char.ofNat 34 then "&quot;".data
  else if c = Char.ofNat 39 then "&#39;".data
  else [c]

/-- HTML escaping of text content, `escapeHtml` (widget.js lines
236-238). -/
def escapeHtml (s : String) : String :=
  String.mk (s.data.flatMap escapeHtmlChar)

/-- Attribute escaping, `escapeAttr` (widget.js lines 240-242): only
double quotes are replaced by `&quot;`. -/
def escapeAttr (s : String) : String :=
  String.mk (s.data.flatMap fun c =>
    if c = Char.ofNat 34 then "&quot;".data else [c])

/-- The team-cell formatter (widget.js lines 203-210): the cell value
(`|| ""`) is HTML-escaped; a truthy `teamUrl` selects the clickable
span with the attribute-escaped URL in `data-href`. -/
def formatTeamCell (label? : Option String) (url? : Option String) : String :=
  let safe := escapeHtml (label?.getD "")
  match url? with
  | some u =>
    if u = "" then "<span class=\"team-text\">" ++ safe ++ "</span>"
    else
      "<span class=\"team-link\" data-href=\"" ++ escapeAttr u ++ "\">" ++
        safe ++ "</span>"
  | none => "<span class=\"team-text\">" ++ safe ++ "</span>"

/-- The team-cell click handler (widget.js lines 211-219): with a truthy
`teamUrl` it posts exactly one `TEAM_CLICK` message built from the
global active league id and the row data; otherwise it posts
nothing.  The returned list is the sequence of posted messages. -/
def teamCellClick (st : WidgetState) (row : TeamRow) : List OutMessage :=
  match row.teamUrl with
  | some u =>
    if u = "" then []
    else [{ type := "TEAM_CLICK", leagueId := st.activeLeagueId,
            equipeName := row.equipeName, url := u }]
  | none => []

/-! Helper lemmas about the standings map, the sort and the position
assignment, shared by the claim theorems below. -/

theorem lookupStandings_update_self (m : List (String × List TeamRow))
    (k : String) (v : List TeamRow) :
    lookupStandings (updateStandings m k v) k = some v := by
  induction m with
  | nil => simp [updateStandings, lookupStandings]
  | cons p m ih =>
    by_cases hp : p.1 = k
    · simp [updateStandings, lookupStandings, hp]
    · simp [updateStandings, lookupStandings, hp, ih]

theorem lookupStandings_update_other (m : List (String × List TeamRow))
    (k : String) (v : List TeamRow) (q : String) (h : q ≠ k) :
    lookupStandings (updateStandings m k v) q = lookupStandings m q := by
  induction m with
  | nil => simp [updateStandings, lookupStandings, Ne.symm h]
  | cons p m ih =>
    by_cases hp : p.1 = k
    · simp [updateStandings, lookupStandings, hp, Ne.symm h]
    · simp only [updateStandings, if_neg hp, lookupStandings, ih]

theorem updateStandings_ne_nil (m : List (String × List TeamRow))
    (k : String) (v : List TeamRow) : updateStandings m k v ≠ [] := by
  cases m with
  | nil => simp [updateStandings]
  | cons p m =>
    simp only [updateStandings]
    split <;> simp

theorem assignPositions_length (rows : List TeamRow) :
    (assignPositions rows).length = rows.length := by
  simp [assignPositions]

theorem assignPositions_getElem?_position (rows : List TeamRow) (i : Nat)
    (r : TeamRow) (h : (assignPositions rows)[i]? = some r) :
    r.position = some ((i : Int) + 1) := by
  simp only [assignPositions, List.getElem?_mapIdx] at h
  cases h0 : rows[i]? with
  | none => rw [h0] at h; simp at h
  | some r0 =>
    rw [h0] at h
    cases h
    rfl

theorem sortRows_perm (lc : String → String → Int) (rows : List TeamRow) :
    List.Perm (sortRows lc rows) rows :=
  List.perm_insertionSort _ _

theorem sortRows_sorted {lc : String → String → Int} (h : LCValid lc)
    (rows : List TeamRow) : List.Sorted (rowLe lc) (sortRows lc rows) := by
  haveI : IsTotal TeamRow (rowLe lc) := ⟨rowLe_total h⟩
  haveI : IsTrans TeamRow (rowLe lc) := ⟨rowLe_trans h⟩
  exact List.sorted_insertionSort _ _

theorem sortRows_sorted_spec {lc : String → String → Int} (h : LCValid lc)
    (rows : List TeamRow) :
    List.Sorted (specFiveKeyChain lc) (sortRows lc rows) :=
  (sortRows_sorted h rows).imp fun hab => (rowLe_iff _ _ _).mp hab

theorem sortRows_idem {lc : String → String → Int} (h : LCValid lc)
    (rows : List TeamRow) :
    sortRows lc (sortRows lc rows) = sortRows lc rows :=
  (sortRows_sorted h rows).insertionSort_eq

theorem displayRows_getElem?_position (lc : String → String → Int)
    (st : WidgetState) (lid : String) (i : Nat) (r : TeamRow)
    (h : (displayRows lc st lid)[i]? = some r) :
    r.position = some ((i : Int) + 1) :=
  assignPositions_getElem?_position _ i r h

theorem displayRows_length (lc : String → String → Int) (st : WidgetState)
    (lid : String) :
    (displayRows lc st lid).length = (storedRows st lid).length := by
  simp [displayRows, assignPositions, sortRows]

/-- Reduction of the message handler on a well-formed `UPDATE_TABLE`
message: the standings entry is replaced, and the league is re-rendered
exactly when it is the active one. -/
theorem handleMessage_update (lc : String → String → Int) (st : WidgetState)
    (p : Payload) (lid : String) (arr : List TeamRow)
    (hlid : p.leagueId = some lid) (hne : lid ≠ "")
    (harr : p.standings = some arr) :
    handleMessage lc st (some { type := some "UPDATE_TABLE", payload := some p }) =
      (if st.activeLeagueId = some lid then
        Except.ok
          (renderLeague lc
            { st with standingsByLeague :=
                updateStandings st.standingsByLeague lid arr } lid, [lid])
      else
        Except.ok
          ({ st with standingsByLeague :=
              updateStandings st.standingsByLeague lid arr }, [])) := by
  obtain ⟨lgs, sbl, ap, plid, pst⟩ := p
  simp only at hlid harr
  subst hlid harr
  simp [handleMessage, hne]

theorem escapeHtmlChar_safe (a c : Char) (h : c ∈ escapeHtmlChar a) :
    c ≠ Char.ofNat 60 ∧ c ≠ Char.ofNat 62 ∧ c ≠ Char.ofNat 34 ∧
      c ≠ Char.ofNat 39 := by
  unfold escapeHtmlChar at h
  split_ifs at h with h1 h2 h3 h4 h5
  · exact (by decide :
      ∀ x ∈ "&amp;".data, x ≠ Char.ofNat 60 ∧ x ≠ Char.ofNat 62 ∧
        x ≠ Char.ofNat 34 ∧ x ≠ Char.ofNat 39) c h
  · exact (by decide :
      ∀ x ∈ "&lt;".data, x ≠ Char.ofNat 60 ∧ x ≠ Char.ofNat 62 ∧
        x ≠ Char.ofNat 34 ∧ x ≠ Char.ofNat 39) c h
  · exact (by decide :
      ∀ x ∈ "&gt;".data, x ≠ Char.ofNat 60 ∧ x ≠ Char.ofNat 62 ∧
        x ≠ Char.ofNat 34 ∧ x ≠ Char.ofNat 39) c h
  · exact (by decide :
      ∀ x ∈ "&quot;".data, x ≠ Char.ofNat 60 ∧ x ≠ Char.ofNat 62 ∧
        x ≠ Char.ofNat 34 ∧ x ≠ Char.ofNat 39) c h
  · exact (by decide :
      ∀ x ∈ "&#39;".data, x ≠ Char.ofNat 60 ∧ x ≠ Char.ofNat 62 ∧
        x ≠ Char.ofNat 34 ∧ x ≠ Char.ofNat 39) c h
  · rw [List.mem_singleton] at h
    subst h
    exact ⟨h2, h3, h4, h5⟩

theorem escapeHtml_safe (s : String) (c : Char) (h : c ∈ (escapeHtml s).data) :
    c ≠ Char.ofNat 60 ∧ c ≠ Char.ofNat 62 ∧ c ≠ Char.ofNat 34 ∧
      c ≠ Char.ofNat 39 := by
  unfold escapeHtml at h
  rw [show (String.mk (s.data.flatMap escapeHtmlChar)).data
      = s.data.flatMap escapeHtmlChar from rfl, List.mem_flatMap] at h
  obtain ⟨a, _, hc⟩ := h
  exact escapeHtmlChar_safe a c hc

theorem escapeAttr_safe (s : String) (c : Char) (h : c ∈ (escapeAttr s).data) :
    c ≠ Char.ofNat 34 := by
  unfold escapeAttr at h
  rw [show (String.mk (s.data.flatMap fun c =>
        if c = Char.ofNat 34 then "&quot;".data else [c])).data
      = s.data.flatMap fun c =>
        if c = Char.ofNat 34 then "&quot;".data else [c] from rfl,
    List.mem_flatMap] at h
  obtain ⟨a, _, hc⟩ := h
  by_cases ha : a = Char.ofNat 34
  · rw [if_pos ha] at hc
    exact (by decide : ∀ x ∈ "&quot;".data, x ≠ Char.ofNat 34) c hc
  · rw [if_neg ha, List.mem_singleton] at hc
    subst hc
    exact ha

theorem bootstrapFires_false_of_ne_nil (st : WidgetState)
    (h : st.standingsByLeague ≠ []) : bootstrapFires st = false := by
  simp [bootstrapFires, List.isEmpty_iff, h]

theorem bootstrapTimer_skip (lc : String → String → Int) (st : WidgetState)
    (h : bootstrapFires st = false) :
    bootstrapTimer lc st = Except.ok (st, []) := by
  rw [bootstrapTimer, if_neg (by simp [h])]

/-! Concrete fixtures used by the witness theorems: a two-team league
matching the scenario of spec section 8, with rows that omit most
numeric fields and carry an upstream `position` the widget must not
trust. -/

def demoRowX : TeamRow :=
  { equipeName := some "X", points := some 3, differentiel := some 1,
    teamUrl := some "/t1", position := some 99 }

def demoRowY : TeamRow :=
  { equipeName := some "Y", points := some 3, differentiel := some 2 }

def demoState : WidgetState :=
  { activeLeagueId := some "A",
    standingsByLeague := [("A", [demoRowX, demoRowY])] }

def demoDisplayedY : TeamRow := { demoRowY with position := some 1 }

def demoDisplayedX : TeamRow := { demoRowX with position := some 2 }

def demoRowB : TeamRow := { equipeName := some "B1", points := some 7 }

def demoUpdatePayload : Payload :=
  { leagueId := some "B", standings := some [demoRowB] }

def stAfterB : WidgetState := { standingsByLeague := [("B", [demoRowB])] }

/-! The claim theorems.  Each is stated over the definitions embedded
from `src/widget.js` above; `lc` is the abstract locale comparison and
`LCValid lc` its consistency (any real collator). -/

/-- C1: for every league id, `renderLeague` orders the rows of that league by
the five-key chain — points descending, then differentiel descending,
then butsPour descending, then victoires descending, then team name
ascending under the locale-aware comparison — with every missing or
absent numeric field compared as 0 (`specFiveKeyChain` spells the chain
out over `numKey`, which defaults absent fields to 0).  The displayed
list is exactly the position-stamped sort of the stored rows, the sort
is a permutation of them, and it is sorted under the chain.  The sort is
a total function on arbitrary row shapes, so no error is raised for
rows lacking any of these fields. -/
theorem claim_C1 (lc : String → String → Int) (h : LCValid lc)
    (st : WidgetState) (lid : String) :
    (renderLeague lc st lid).displayed
        = assignPositions (sortRows lc (storedRows st lid)) ∧
    List.Perm (sortRows lc (storedRows st lid)) (storedRows st lid) ∧
    List.Sorted (specFiveKeyChain lc) (sortRows lc (storedRows st lid)) :=
  ⟨rfl, sortRows_perm lc _, sortRows_sorted_spec h _⟩

theorem claim_C1_witness :
    LCValid lcStd ∧
    ((renderLeague lcStd demoState "A").displayed
        = assignPositions (sortRows lcStd (storedRows demoState "A")) ∧
      List.Perm (sortRows lcStd (storedRows demoState "A"))
        (storedRows demoState "A") ∧
      List.Sorted (specFiveKeyChain lcStd)
        (sortRows lcStd (storedRows demoState "A"))) :=
  ⟨lcStd_valid, claim_C1 lcStd lcStd_valid demoState "A"⟩

/-- C2: after `renderLeague` sorts the rows of a league, the row at index i
of the displayed list has `position = i + 1`: positions are 1-based,
consecutive and gap-free (the displayed list keeps the stored length and
every index is stamped), regardless of any `position` value carried by
the upstream data, over which the theorem quantifies. -/
theorem claim_C2 (lc : String → String → Int) (st : WidgetState)
    (lid : String) :
    (renderLeague lc st lid).displayed.length = (storedRows st lid).length ∧
    ∀ (i : Nat) (r : TeamRow),
      ((renderLeague lc st lid).displayed)[i]? = some r →
      r.position = some ((i : Int) + 1) :=
  ⟨displayRows_length lc st lid,
   fun i r h => displayRows_getElem?_position lc st lid i r h⟩

theorem claim_C2_witness :
    ((renderLeague lcStd demoState "A").displayed)[0]? = some demoDisplayedY ∧
    demoDisplayedY.position = some ((0 : Int) + 1) :=
  ⟨by decide, (claim_C2 lcStd demoState "A").2 0 demoDisplayedY (by decide)⟩

/-- C3: the ranking is pure and deterministic.  In this functional
embedding two runs on identical input are the same term, and the
substantive content is proved: the sorted output is a fixed point of
the sort, and re-rendering the same league on the resulting state
reproduces the identical displayed rows and positions. -/
theorem claim_C3 (lc : String → String → Int) (h : LCValid lc)
    (rows : List TeamRow) (st : WidgetState) (lid : String) :
    sortRows lc (sortRows lc rows) = sortRows lc rows ∧
    (renderLeague lc (renderLeague lc st lid) lid).displayed
      = (renderLeague lc st lid).displayed :=
  ⟨sortRows_idem h rows, rfl⟩

theorem claim_C3_witness :
    LCValid lcStd ∧
    (sortRows lcStd (sortRows lcStd [demoRowX, demoRowY])
        = sortRows lcStd [demoRowX, demoRowY] ∧
      (renderLeague lcStd (renderLeague lcStd demoState "A") "A").displayed
        = (renderLeague lcStd demoState "A").displayed) :=
  ⟨lcStd_valid, claim_C3 lcStd lcStd_valid [demoRowX, demoRowY] demoState "A"⟩

/-- C4: an `UPDATE_TABLE` message whose payload carries a leagueId (a
non-empty string — the truthiness test of line 68, under which an
empty id does not count as carrying one) and an array-valued `standings`
field replaces exactly the entry of that league in the stored mapping (other
entries unchanged), re-renders if and only if that league is the active
one, and for a non-active league leaves the displayed table and active
league untouched while still updating the store. -/
theorem claim_C4 (lc : String → String → Int) (st : WidgetState)
    (p : Payload) (lid : String) (arr : List TeamRow)
    (hlid : p.leagueId = some lid) (hne : lid ≠ "")
    (harr : p.standings = some arr) :
    ∃ st',
      handleMessage lc st
          (some { type := some "UPDATE_TABLE", payload := some p })
        = Except.ok (st', if st.activeLeagueId = some lid then [lid] else []) ∧
      lookupStandings st'.standingsByLeague lid = some arr ∧
      (∀ q, q ≠ lid → lookupStandings st'.standingsByLeague q
          = lookupStandings st.standingsByLeague q) ∧
      (st.activeLeagueId ≠ some lid →
        st'.displayed = st.displayed ∧
        st'.activeLeagueId = st.activeLeagueId) := by
  by_cases hact : st.activeLeagueId = some lid
  · refine ⟨renderLeague lc
      { st with standingsByLeague :=
          updateStandings st.standingsByLeague lid arr } lid, ?_, ?_, ?_, ?_⟩
    · rw [handleMessage_update lc st p lid arr hlid hne harr]
      simp [hact]
    · exact lookupStandings_update_self _ _ _
    · intro q hq
      exact lookupStandings_update_other _ _ _ _ hq
    · intro hc
      exact absurd hact hc
  · refine ⟨{ st with standingsByLeague :=
        updateStandings st.standingsByLeague lid arr }, ?_, ?_, ?_, ?_⟩
    · rw [handleMessage_update lc st p lid arr hlid hne harr]
      simp [hact]
    · exact lookupStandings_update_self _ _ _
    · intro q hq
      exact lookupStandings_update_other _ _ _ _ hq
    · intro _
      exact ⟨rfl, rfl⟩

theorem claim_C4_witness :
    demoUpdatePayload.leagueId = some "B" ∧ ("B" : String) ≠ "" ∧
    ∃ st',
      handleMessage lcStd demoState
          (some { type := some "UPDATE_TABLE",
                  payload := some demoUpdatePayload })
        = Except.ok (st',
            if demoState.activeLeagueId = some "B" then ["B"] else []) ∧
      lookupStandings st'.standingsByLeague "B" = some [demoRowB] ∧
      (∀ q, q ≠ "B" → lookupStandings st'.standingsByLeague q
          = lookupStandings demoState.standingsByLeague q) ∧
      (demoState.activeLeagueId ≠ some "B" →
        st'.displayed = demoState.displayed ∧
        st'.activeLeagueId = demoState.activeLeagueId) :=
  ⟨rfl, by decide,
   claim_C4 lcStd demoState demoUpdatePayload "B" [demoRowB] rfl (by decide) rfl⟩

/-- C5 (amended): messages with no recognized kind, and `UPDATE_TABLE`
messages with malformed payloads, are ignored silently with no state
change and no render.  An `INIT_WIDGET` carrying no payload at all,
however, is not error-free: once the DOM is ready the initializer reads
`payload.leagues` on `undefined` and raises a TypeError (having already
marked init received); before DOM-ready it returns silently, marking
init received and deferring the absent payload, with standings, leagues
and active league unchanged. -/
theorem claim_C5 (lc : String → String → Int) (st : WidgetState) :
    handleMessage lc st none = Except.ok (st, []) ∧
    (∀ pay, handleMessage lc st (some { type := none, payload := pay })
      = Except.ok (st, [])) ∧
    (∀ pay, handleMessage lc st (some { type := some "", payload := pay })
      = Except.ok (st, [])) ∧
    (∀ t pay, t ≠ "" → t ≠ "INIT_WIDGET" → t ≠ "UPDATE_TABLE" →
      handleMessage lc st (some { type := some t, payload := pay })
        = Except.ok (st, [])) ∧
    handleMessage lc st (some { type := some "UPDATE_TABLE", payload := none })
      = Except.ok (st, []) ∧
    (∀ p : Payload,
      p.leagueId = none ∨ p.leagueId = some "" ∨ p.standings = none →
      handleMessage lc st (some { type := some "UPDATE_TABLE", payload := some p })
        = Except.ok (st, [])) ∧
    (st.domReady = false →
      handleMessage lc st (some { type := some "INIT_WIDGET", payload := none })
        = Except.ok ({ st with initReceived := true, pendingPayload := none }, [])) ∧
    (st.domReady = true →
      handleMessage lc st (some { type := some "INIT_WIDGET", payload := none })
        = Except.error JsError.typeError) := by
  refine ⟨rfl, fun pay => rfl, fun pay => rfl,
    fun t pay h1 h2 h3 => ?_, rfl, fun p hp => ?_, fun hd => ?_, fun hd => ?_⟩
  · simp [handleMessage, h1, h2, h3]
  · obtain ⟨lgs, sbl, ap, plid, pst⟩ := p
    simp only at hp
    rcases hp with h | h | h
    · subst h
      cases pst <;> rfl
    · subst h
      cases pst <;> rfl
    · subst h
      cases plid <;> rfl
  · simp [handleMessage, hd]
  · simp [handleMessage, hd, processInitPayload]

/-- C5 counterexample: the claim asserts the handler returns without
raising any error in particular for an `INIT_WIDGET` message carrying no
payload; on a DOM-ready state the code instead throws a TypeError. -/
theorem claim_C5_counterexample :
    handleMessage lcStd { domReady := true }
        (some { type := some "INIT_WIDGET" })
      = Except.error JsError.typeError := rfl

theorem claim_C5_witness :
    ("PING" : String) ≠ "" ∧
    handleMessage lcStd demoState (some { type := some "PING" })
      = Except.ok (demoState, []) :=
  ⟨by decide,
   (claim_C5 lcStd demoState).2.2.2.1 "PING" none (by decide) (by decide)
     (by decide)⟩

/-- C6: the bootstrap timer callback feeds the built-in sample dataset
to the initializer if and only if no `INIT_WIDGET` has been received and
the stored standings mapping is empty at that moment; otherwise it does
nothing at all. -/
theorem claim_C6 (lc : String → String → Int) (st : WidgetState) :
    (bootstrapFires st = true ↔
      st.initReceived = false ∧ st.standingsByLeague = []) ∧
    (bootstrapFires st = true →
      bootstrapTimer lc st = processInitPayload lc st (some SAMPLE_PAYLOAD)) ∧
    (bootstrapFires st = false → bootstrapTimer lc st = Except.ok (st, [])) := by
  refine ⟨?_, fun h => ?_, fun h => bootstrapTimer_skip lc st h⟩
  · simp [bootstrapFires, List.isEmpty_iff]
  · rw [bootstrapTimer, if_pos h]

theorem claim_C6_witness :
    bootstrapFires { initReceived := true } = false ∧
    bootstrapTimer lcStd { initReceived := true }
      = Except.ok ({ initReceived := true }, []) :=
  ⟨by decide, (claim_C6 lcStd { initReceived := true }).2.2 (by decide)⟩

/-- C7: the team-cell formatter HTML-escapes the team name before
inserting it as the cell text and attribute-escapes the URL before
placing it in `data-href`: the escaped name contains none of the
characters lt, gt, double quote or apostrophe (each of the five
specials, ampersand included, maps to its entity), and the escaped URL
contains no double quote, so neither can close its context or open
markup. -/
theorem claim_C7 (label url : String) :
    (∀ c ∈ (escapeHtml label).data,
      c ≠ Char.ofNat 60 ∧ c ≠ Char.ofNat 62 ∧ c ≠ Char.ofNat 34 ∧
        c ≠ Char.ofNat 39) ∧
    (∀ c ∈ (escapeAttr url).data, c ≠ Char.ofNat 34) ∧
    (url ≠ "" → formatTeamCell (some label) (some url)
      = "<span class=\"team-link\" data-href=\"" ++ escapeAttr url ++ "\">"
          ++ escapeHtml label ++ "</span>") ∧
    formatTeamCell (some label) none
      = "<span class=\"team-text\">" ++ escapeHtml label ++ "</span>" ∧
    escapeHtml "&" = "&amp;" ∧
    escapeHtml "<" = "&lt;" ∧
    escapeHtml ">" = "&gt;" ∧
    escapeHtml (String.mk [Char.ofNat 34]) = "&quot;" ∧
    escapeHtml (String.mk [Char.ofNat 39]) = "&#39;" := by
  refine ⟨escapeHtml_safe label, escapeAttr_safe url, fun h => ?_, rfl,
    by decide, by decide, by decide, by decide, by decide⟩
  simp [formatTeamCell, h]

theorem claim_C7_witness :
    ("/t" ++ String.mk [Char.ofNat 34] ++ "x") ≠ "" ∧
    formatTeamCell (some "<script>")
        (some ("/t" ++ String.mk [Char.ofNat 34] ++ "x"))
      = "<span class=\"team-link\" data-href=\""
          ++ escapeAttr ("/t" ++ String.mk [Char.ofNat 34] ++ "x") ++ "\">"
          ++ escapeHtml "<script>" ++ "</span>" ∧
    escapeHtml "<script>" = "&lt;script&gt;" ∧
    escapeAttr ("/t" ++ String.mk [Char.ofNat 34] ++ "x") = "/t&quot;x" :=
  ⟨by decide,
   (claim_C7 "<script>" ("/t" ++ String.mk [Char.ofNat 34] ++ "x")).2.2.1
     (by decide),
   by decide, by decide⟩

/-- C8: clicking the team-name cell posts exactly one `TEAM_CLICK`
message — leagueId the active league id, equipeName the team name of the
row, url the teamUrl of the row — if and only if the row carries a teamUrl
(a non-empty string: the truthiness test of line 213, under which an
empty URL does not count as carrying one); otherwise no message is
posted. -/
theorem claim_C8 (st : WidgetState) (row : TeamRow) :
    (∀ u, row.teamUrl = some u → u ≠ "" →
      teamCellClick st row =
        [{ type := "TEAM_CLICK", leagueId := st.activeLeagueId,
           equipeName := row.equipeName, url := u }]) ∧
    ((row.teamUrl = none ∨ row.teamUrl = some "") →
      teamCellClick st row = []) := by
  constructor
  · intro u hu hne
    simp [teamCellClick, hu, hne]
  · rintro (h | h) <;> simp [teamCellClick, h]

theorem claim_C8_witness :
    demoRowX.teamUrl = some "/t1" ∧ ("/t1" : String) ≠ "" ∧
    teamCellClick demoState demoRowX =
      [{ type := "TEAM_CLICK", leagueId := some "A",
         equipeName := some "X", url := "/t1" }] :=
  ⟨rfl, by decide, (claim_C8 demoState demoRowX).1 "/t1" rfl (by decide)⟩

/-- C9: `renderLeague` never changes the stored standings mapping — it
works on shallow copies of the rows — so the rows held in
`standingsByLeague`, upstream `position` values included, are identical
before and after a render, while the position of every displayed row is
recomputed from the sort order (never taken from upstream data). -/
theorem claim_C9 (lc : String → String → Int) (st : WidgetState)
    (lid : String) :
    (renderLeague lc st lid).standingsByLeague = st.standingsByLeague ∧
    ∀ (i : Nat) (r : TeamRow),
      ((renderLeague lc st lid).displayed)[i]? = some r →
      r.position = some ((i : Int) + 1) :=
  ⟨rfl, fun i r h => displayRows_getElem?_position lc st lid i r h⟩

theorem claim_C9_witness :
    (renderLeague lcStd demoState "A").standingsByLeague
      = demoState.standingsByLeague ∧
    ((renderLeague lcStd demoState "A").displayed)[1]? = some demoDisplayedX ∧
    demoDisplayedX.position = some ((1 : Int) + 1) :=
  ⟨(claim_C9 lcStd demoState "A").1, by decide,
   (claim_C9 lcStd demoState "A").2 1 demoDisplayedX (by decide)⟩

/-- C10: an `UPDATE_TABLE` message is applied to the stored standings
immediately, for every state — no hypothesis on DOM readiness or on any
`INIT_WIDGET` having been received — while `INIT_WIDGET` is deferred
when the DOM is not ready; consequently, after any pre-init
`UPDATE_TABLE` stores a standings entry, the bootstrap guard is off and
the timer callback leaves the state untouched, so the sample dataset is
suppressed even though no `INIT_WIDGET` ever arrived. -/
theorem claim_C10 (lc : String → String → Int) (p : Payload) (lid : String)
    (arr : List TeamRow) (hlid : p.leagueId = some lid) (hne : lid ≠ "")
    (harr : p.standings = some arr) :
    (∀ st : WidgetState, ∃ st' rnds,
      handleMessage lc st
          (some { type := some "UPDATE_TABLE", payload := some p })
        = Except.ok (st', rnds) ∧
      st'.standingsByLeague = updateStandings st.standingsByLeague lid arr) ∧
    (∀ (st : WidgetState) (pay : Option Payload), st.domReady = false →
      handleMessage lc st (some { type := some "INIT_WIDGET", payload := pay })
        = Except.ok ({ st with initReceived := true, pendingPayload := pay },
            [])) ∧
    (∀ (st st' : WidgetState) (rnds : List String),
      handleMessage lc st
          (some { type := some "UPDATE_TABLE", payload := some p })
        = Except.ok (st', rnds) →
      bootstrapFires st' = false ∧
      bootstrapTimer lc st' = Except.ok (st', [])) := by
  refine ⟨fun st => ?_, fun st pay hd => ?_, fun st st' rnds heq => ?_⟩
  · rw [handleMessage_update lc st p lid arr hlid hne harr]
    by_cases hact : st.activeLeagueId = some lid
    · exact ⟨_, _, by rw [if_pos hact], rfl⟩
    · exact ⟨_, _, by rw [if_neg hact], rfl⟩
  · simp [handleMessage, hd]
  · rw [handleMessage_update lc st p lid arr hlid hne harr] at heq
    have hne' : st'.standingsByLeague ≠ [] := by
      by_cases hact : st.activeLeagueId = some lid
      · rw [if_pos hact] at heq
        injection heq with h
        have h1 : renderLeague lc
            { st with standingsByLeague :=
                updateStandings st.standingsByLeague lid arr } lid = st' :=
          congrArg Prod.fst h
        rw [← h1]
        exact updateStandings_ne_nil _ _ _
      · rw [if_neg hact] at heq
        injection heq with h
        have h1 : ({ st with standingsByLeague :=
                       updateStandings st.standingsByLeague lid arr } :
                     WidgetState)
              = st' :=
          congrArg Prod.fst h
        rw [← h1]
        exact updateStandings_ne_nil _ _ _
    exact ⟨bootstrapFires_false_of_ne_nil st' hne',
      bootstrapTimer_skip lc st' (bootstrapFires_false_of_ne_nil st' hne')⟩

theorem claim_C10_witness :
    handleMessage lcStd {}
        (some { type := some "UPDATE_TABLE",
                payload := some demoUpdatePayload })
      = Except.ok (stAfterB, []) ∧
    bootstrapFires stAfterB = false ∧
    bootstrapTimer lcStd stAfterB = Except.ok (stAfterB, []) :=
  ⟨rfl,
   (claim_C10 lcStd demoUpdatePayload "B" [demoRowB] rfl (by decide) rfl).2.2
     {} stAfterB [] rfl⟩

end LeagueWidget
